import Mathlib

/-!
Shallow embedding of the VPX decoder adapter (`src/decoder.rs` of
`media-codec-vpx`) and proofs about its format translation, zero-copy
buffer conversion, decoder construction, cursor reset, buffer-pool growth
and frame-pool configuration latch.

Machine integers are modelled as `Nat` with explicit `% 2 ^ 64` where the
source performs wrapping `usize` arithmetic.  Reference-counted `Arc`
handles are modelled by an explicit trace of the `Arc` operations a code
path performs, interpreted by a small-step counter semantics.  Collaborator
code from the `media-core` crate (not part of this repository) is modelled
from the spec and marked as such in its doc comment.
-/

set_option autoImplicit false

namespace VPXCodec

/-- The external library's image-format enumeration (`vpx_img_fmt`), from the
generated bindings of libvpx's `vpx_image.h`. -/
inductive vpx_img_fmt where
  | VPX_IMG_FMT_NONE
  | VPX_IMG_FMT_YV12
  | VPX_IMG_FMT_I420
  | VPX_IMG_FMT_I422
  | VPX_IMG_FMT_I444
  | VPX_IMG_FMT_I440
  | VPX_IMG_FMT_NV12
  | VPX_IMG_FMT_I42016
  | VPX_IMG_FMT_I42216
  | VPX_IMG_FMT_I44416
  | VPX_IMG_FMT_I44016
  deriving DecidableEq, Repr

/-- The host's canonical pixel-format enumeration (the variants of
`media_core::video::PixelFormat` reachable from this adapter). -/
inductive PixelFormat where
  | YV12
  | I420
  | I422
  | I444
  | NV12
  | I010
  | I012
  | I210
  | I212
  | I410
  | I412
  deriving DecidableEq, Repr

/-- Embedding of `vpx_img_fmt_to_pixel_format` (src/decoder.rs, lines 38-55):
a match on the (format, depth) pair. -/
def vpx_img_fmt_to_pixel_format (fmt : vpx_img_fmt) (depth : Nat) : Option PixelFormat :=
  match fmt, depth with
  | .VPX_IMG_FMT_YV12, _ => some .YV12
  | .VPX_IMG_FMT_I420, _ => some .I420
  | .VPX_IMG_FMT_I422, _ => some .I422
  | .VPX_IMG_FMT_I444, _ => some .I444
  | .VPX_IMG_FMT_NV12, _ => some .NV12
  | .VPX_IMG_FMT_I42016, 10 => some .I010
  | .VPX_IMG_FMT_I42016, 12 => some .I012
  | .VPX_IMG_FMT_I42216, 10 => some .I210
  | .VPX_IMG_FMT_I42216, 12 => some .I212
  | .VPX_IMG_FMT_I44416, 10 => some .I410
  | .VPX_IMG_FMT_I44416, 12 => some .I412
  | _, _ => none

/-- The external library's color-range enumeration (`vpx_color_range`). -/
inductive vpx_color_range where
  | VPX_CR_STUDIO_RANGE
  | VPX_CR_FULL_RANGE
  deriving DecidableEq, Repr

/-- The host's canonical color-range enumeration. -/
inductive ColorRange where
  | Video
  | Full
  deriving DecidableEq, Repr

/-- Embedding of `vpx_color_range_to_color_range` (src/decoder.rs, lines 57-64). -/
def vpx_color_range_to_color_range (color_range : vpx_color_range) : ColorRange :=
  match color_range with
  | .VPX_CR_STUDIO_RANGE => .Video
  | .VPX_CR_FULL_RANGE => .Full

/-- The external library's color-space enumeration (`vpx_color_space`). -/
inductive vpx_color_space where
  | VPX_CS_UNKNOWN
  | VPX_CS_BT_601
  | VPX_CS_BT_709
  | VPX_CS_SMPTE_170
  | VPX_CS_SMPTE_240
  | VPX_CS_BT_2020
  | VPX_CS_RESERVED
  | VPX_CS_SRGB
  deriving DecidableEq, Repr

/-- The host's canonical color-matrix enumeration (the variants reachable
from this adapter). -/
inductive ColorMatrix where
  | Unspecified
  | BT470BG
  | BT709
  | SMPTE170M
  | SMPTE240M
  | BT2020NCL
  | Reserved
  | Identity
  deriving DecidableEq, Repr

/-- Embedding of `vpx_color_space_to_color_matrix` (src/decoder.rs, lines 66-79). -/
def vpx_color_space_to_color_matrix (color_space : vpx_color_space) : ColorMatrix :=
  match color_space with
  | .VPX_CS_UNKNOWN => .Unspecified
  | .VPX_CS_BT_601 => .BT470BG
  | .VPX_CS_BT_709 => .BT709
  | .VPX_CS_SMPTE_170 => .SMPTE170M
  | .VPX_CS_SMPTE_240 => .SMPTE240M
  | .VPX_CS_BT_2020 => .BT2020NCL
  | .VPX_CS_RESERVED => .Reserved
  | .VPX_CS_SRGB => .Identity

deriving instance DecidableEq for Except

/-- The codec-identifier enumeration.  The source matches `CodecID::VP8`,
`CodecID::VP9` and a catch-all `_`; the remaining variants of the external
enumeration are modelled by `Other` tagged with their discriminant. -/
inductive CodecID where
  | VP8
  | VP9
  | Other (code : Nat)
  deriving DecidableEq, Repr

/-- Payload of an `unsupported_error!(..)` — the macro formats whatever
argument it is given into the error; the adapter passes either the raw
image-format code or the codec identifier. -/
inductive ErrorArg where
  | fmtCode (fmt : vpx_img_fmt)
  | codecId (id : CodecID)
  | msg (s : String)
  deriving DecidableEq, Repr

/-- The `media_core::error::Error` variants this adapter produces:
`Unsupported` (via `unsupported_error!`), `Invalid` (decode / integrity
failures, carrying a message) and `Again` (no frame ready). -/
inductive Error where
  | Unsupported (arg : ErrorArg)
  | Invalid (s : String)
  | Again (s : String)
  deriving DecidableEq, Repr

/-- Modelled from the spec: `PixelFormat::components` lives in the
`media-core` collaborator crate, absent from this repository's sources.
Per the spec the supported layouts are planar 4:2:0 / 4:2:2 / 4:4:4
(three planes) and the semi-planar format (two planes). -/
def PixelFormat.components : PixelFormat → Nat
  | .NV12 => 2
  | _ => 3

/-- Modelled from the spec: `PixelFormat::calc_plane_height` lives in the
`media-core` collaborator crate, absent from this repository's sources.
Per the spec plane height is computed per-plane per pixel-format
subsampling rules: 4:2:0 chroma planes cover half the rows (rounded up),
4:2:2 and 4:4:4 chroma planes cover all rows, and the semi-planar 4:2:0
chroma plane covers half the rows. -/
def PixelFormat.calc_plane_height (fmt : PixelFormat) (plane : Nat) (height : Nat) : Nat :=
  if plane = 0 then height
  else
    match fmt with
    | .YV12 | .I420 | .NV12 | .I010 | .I012 => (height + 1) / 2
    | _ => height

/-- The VideoFrameDescriptor built by `VPXImage::descriptor`: canonical
pixel format, geometry and color metadata. -/
structure VideoFrameDescriptor where
  format : PixelFormat
  width : Nat
  height : Nat
  color_range : ColorRange
  color_matrix : ColorMatrix
  deriving DecidableEq, Repr

/-- Modelled from the spec: `VideoFrameDescriptor::try_new` lives in the
`media-core` collaborator crate, absent from this repository's sources.
It validates the geometry (the stored dimensions are non-zero — the source
later reads `desc.height.get()` from a non-zero type).  The color fields it
defaults are immediately overwritten by `VPXImage::descriptor`. -/
def VideoFrameDescriptor.try_new (format : PixelFormat) (width height : Nat) :
    Except Error VideoFrameDescriptor :=
  if width = 0 ∨ height = 0 then .error (.Invalid "invalid dimension")
  else .ok ⟨format, width, height, .Video, .Unspecified⟩

/-- Embedding of the external decoder's per-frame output descriptor
`vpx_image_t`, restricted to the fields the adapter reads.  Plane pointers
and the buffer base address are machine addresses modelled as `Nat`;
`fb_priv` is the opaque private field, `true` iff non-null (it then encodes
a raw `Arc<Buffer>` reference to the image's backing buffer). -/
structure vpx_image_t where
  d_w : Nat
  d_h : Nat
  fmt : vpx_img_fmt
  bit_depth : Nat
  range : vpx_color_range
  cs : vpx_color_space
  planes : Nat → Nat
  stride : Nat → Nat
  fb_priv : Bool

/-- Embedding of `VPXImage::descriptor` (src/decoder.rs, lines 92-106):
translate the pixel format (failing with the raw format code on an
unmatched pair), build the descriptor, then fill in color metadata. -/
def VPXImage.descriptor (img : vpx_image_t) : Except Error VideoFrameDescriptor :=
  match vpx_img_fmt_to_pixel_format img.fmt img.bit_depth with
  | none => .error (.Unsupported (.fmtCode img.fmt))
  | some pixel_format =>
    match VideoFrameDescriptor.try_new pixel_format img.d_w img.d_h with
    | .error e => .error e
    | .ok desc =>
      .ok { desc with
              color_range := vpx_color_range_to_color_range img.range,
              color_matrix := vpx_color_space_to_color_matrix img.cs }

/-- Embedding of `VPXImage::has_frame_buffer` (src/decoder.rs, lines 88-90). -/
def VPXImage.has_frame_buffer (img : vpx_image_t) : Bool :=
  img.fb_priv

/-- The pool-managed Backing Buffer (`media_core::buffer::Buffer`) as the
adapter observes it: its data pointer (a machine address) and its length. -/
structure Buffer where
  base : Nat
  len : Nat
  deriving DecidableEq, Repr

/-- `img.planes[plane] as usize - buffer.data().as_ptr() as usize`:
wrapping `usize` subtraction of two machine addresses. -/
def ptrOffset (p base : Nat) : Nat :=
  (((p : Int) - (base : Int)) % (2 ^ 64 : Int)).toNat

/-- One `Arc` operation performed by a code path on the backing buffer's
reference count. -/
inductive ArcOp where
  | fromRaw
  | intoRaw
  | cloneOp
  | dropOp
  deriving DecidableEq, Repr

/-- Counter semantics of `Arc`: the state is the strong count together with
whether the raw (`into_raw`) reference is currently encoded in the image's
private field.  `from_raw` moves the raw reference into an owned handle
(count unchanged), `into_raw` releases it back to raw form (count
unchanged), `clone` increments, `drop` decrements. -/
def arcStep : Nat × Bool → ArcOp → Nat × Bool
  | (rc, _), .fromRaw => (rc, false)
  | (rc, _), .intoRaw => (rc, true)
  | (rc, raw), .cloneOp => (rc + 1, raw)
  | (rc, raw), .dropOp => (rc - 1, raw)

/-- Run a trace of `Arc` operations from an initial strong count, the raw
reference initially held in the private field. -/
def arcRun (rc0 : Nat) (ops : List ArcOp) : Nat × Bool :=
  ops.foldl arcStep (rc0, true)

/-- The plane loop of `VPXImage::convert_to_buffer` (src/decoder.rs, lines
134-144): for each plane below `n`, compute the offset of its pointer from
the buffer base and fail (`none`) as soon as an offset reaches the buffer
length; otherwise push `(offset, stride)`. -/
def planeOffsets (img : vpx_image_t) (buffer : Buffer) : Nat → Option (List (Nat × Nat))
  | 0 => some []
  | n + 1 =>
    match planeOffsets img buffer n with
    | none => none
    | some acc =>
      let offset := ptrOffset (img.planes n) buffer.base
      if buffer.len ≤ offset then none
      else some (acc ++ [(offset, img.stride n)])

/-- Embedding of `VPXImage::convert_to_buffer` (src/decoder.rs, lines
126-150).  Returns the result together with the trace of `Arc` operations
the taken path performs on the backing buffer:
* descriptor failure — early return before `Arc::from_raw`, empty trace;
* some plane offset out of range — `Arc::from_raw` then `Arc::into_raw`
  restores the borrow before the `Invalid` error;
* all offsets in range — `Arc::from_raw`, `clone` (the handle returned to
  the caller), `Arc::into_raw`. -/
def VPXImage.convert_to_buffer (img : vpx_image_t) (buffer : Buffer) :
    Except Error (List (Nat × Nat) × VideoFrameDescriptor) × List ArcOp :=
  match VPXImage.descriptor img with
  | .error e => (.error e, [])
  | .ok desc =>
    match planeOffsets img buffer desc.format.components with
    | none => (.error (.Invalid "invalid frame buffer offset"), [.fromRaw, .intoRaw])
    | some buffers => (.ok (buffers, desc), [.fromRaw, .cloneOp, .intoRaw])

/-- Embedding of `VPXImage::convert_to_frame` (src/decoder.rs, lines
108-124) at the granularity the claims need: it recomputes the descriptor
(and fails exactly when that fails); the per-plane raw-slice copies and the
`media-core` frame construction are collaborator code modelled as
succeeding.  The produced self-contained frame is abstracted to its
descriptor. -/
def VPXImage.convert_to_frame (img : vpx_image_t) : Except Error VideoFrameDescriptor :=
  match VPXImage.descriptor img with
  | .error e => .error e
  | .ok desc => .ok desc

/-- External status codes (`vpx_codec_err_t`), modelled as `Nat` with `0` =
`VPX_CODEC_OK`, as in the generated bindings' discriminants. -/
def VPX_CODEC_OK : Nat := 0

/-- Modelled from the spec: `vpx_error_string` (src/lib.rs) surfaces the
external library's error string via FFI; only the fact that the surfaced
message is a function of the status code matters here. -/
def vpx_error_string (err : Nat) : String :=
  "vpx codec error " ++ toString err

/-- One call from the adapter into the external libvpx library during
construction. -/
inductive ExtCall where
  | vp8_dx
  | vp9_dx
  | dec_init_ver
  | set_frame_buffer_functions
  deriving DecidableEq, Repr

/-- The decoder state the claims observe: codec identifier, registered
name, the iteration cursor (`none` = null = start-of-output), the
decoder's Buffer Pool, and the frame-pool-configured latch. -/
structure VPXDecoder where
  id : CodecID
  name : String
  iter : Option Nat
  pool_capacity : Nat
  frame_pool_initialized : Bool
  deriving DecidableEq, Repr

/-- Embedding of `VPXDecoder::new` (src/decoder.rs, lines 286-324),
parametrised by the status the external initializer
(`vpx_codec_dec_init_ver`) would return.  Produces the construction result
together with the trace of external-library calls made:
* an identifier other than VP8/VP9 fails with `unsupported_error!(id)`
  before any external call;
* otherwise the interface selector and the initializer are called; a
  non-OK initializer status surfaces the library's error string;
* on success the Buffer Pool is allocated (capacity 0) and, only for VP9,
  the frame-buffer callbacks are registered. -/
def VPXDecoder.new (id : CodecID) (initRet : Nat) :
    Except Error VPXDecoder × List ExtCall :=
  match id with
  | .Other _ => (.error (.Unsupported (.codecId id)), [])
  | .VP8 =>
    if initRet ≠ VPX_CODEC_OK then
      (.error (.Invalid (vpx_error_string initRet)), [.vp8_dx, .dec_init_ver])
    else
      (.ok ⟨.VP8, "vp8-dec", none, 0, false⟩, [.vp8_dx, .dec_init_ver])
  | .VP9 =>
    if initRet ≠ VPX_CODEC_OK then
      (.error (.Invalid (vpx_error_string initRet)), [.vp9_dx, .dec_init_ver])
    else
      (.ok ⟨.VP9, "vp9-dec", none, 0, false⟩,
        [.vp9_dx, .dec_init_ver, .set_frame_buffer_functions])

/-- Embedding of `VPXDecoder::send_packet` (src/decoder.rs, lines 184-195),
parametrised by the status the external `vpx_codec_decode` call returns:
the iteration cursor is nulled on every call, then a non-OK status
surfaces as an `Invalid` error with the library's error string. -/
def VPXDecoder.send_packet (dec : VPXDecoder) (decodeRet : Nat) :
    VPXDecoder × Except Error Unit :=
  let dec' := { dec with iter := none }
  if decodeRet ≠ VPX_CODEC_OK then
    (dec', .error (.Invalid (vpx_error_string decodeRet)))
  else
    (dec', .ok ())

/-- Embedding of `VPXDecoder::flush` (src/decoder.rs, lines 245-255): a
decode call with null data; the cursor handling and error surfacing are
identical to `send_packet`. -/
def VPXDecoder.flush (dec : VPXDecoder) (decodeRet : Nat) :
    VPXDecoder × Except Error Unit :=
  let dec' := { dec with iter := none }
  if decodeRet ≠ VPX_CODEC_OK then
    (dec', .error (.Invalid (vpx_error_string decodeRet)))
  else
    (dec', .ok ())

/-- The decoder-instance Buffer Pool (`media_core::buffer::BufferPool`) as
the bridge callbacks observe it: the recorded buffer capacity. -/
structure BufferPool where
  capacity : Nat
  deriving DecidableEq, Repr

/-- Modelled from the spec: `BufferPool::get_buffer` lives in the
`media-core` collaborator crate, absent from this repository's sources.
Per the spec it hands out a Backing Buffer of the pool's current recorded
capacity (the pool "looks up or grows a Backing Buffer ... to at least
minSize"); the buffer's address is abstract. -/
def BufferPool.get_buffer_len (pool : BufferPool) : Nat :=
  pool.capacity

/-- Embedding of the `get_frame_buffer` callback (src/decoder.rs, lines
258-274): grow the pool's recorded capacity when the request exceeds it,
take a buffer from the pool, fill in the frame-buffer record with its
pointer/size, store the buffer's raw (`into_raw`) reference as the opaque
handle, restore the borrowed pool reference, return 0.  The result is the
updated pool, the size written to `fb.size`, and the C return code. -/
def get_frame_buffer (pool : BufferPool) (min_size : Nat) : BufferPool × Nat × Int :=
  let pool' := if pool.capacity < min_size then { pool with capacity := min_size } else pool
  (pool', pool'.get_buffer_len, 0)

/-- Embedding of the `release_frame_buffer` callback (src/decoder.rs, lines
276-283) acting on the handle's buffer strong count: a null handle is a
no-op; otherwise the raw reference is reconstructed (`Arc::from_raw`) and
dropped. -/
def release_frame_buffer (handle_null : Bool) (rc : Nat) : Nat × Int :=
  if handle_null then (rc, 0)
  else ((arcRun rc [.fromRaw, .dropOp]).1, 0)

/-- The caller-supplied frame pool (`media_core::frame_pool::FramePool`) as
this adapter observes it: its configured descriptor (none until
`configure` is called) and whether it was configured with the
`EmptyFrameCreator` (the descriptor-only allocation strategy). -/
structure FramePool where
  config : Option VideoFrameDescriptor
  emptyCreator : Bool
  deriving DecidableEq, Repr

/-- `FramePool::configure(desc, creator)` as invoked by `receive_frame`:
records the descriptor and the allocation strategy. -/
def FramePool.configure (pool : FramePool) (desc : VideoFrameDescriptor)
    (empty : Bool) : FramePool :=
  { pool with config := some desc, emptyCreator := empty }

/-- Modelled from the spec: `FramePool::get_frame_with_descriptor` lives in
the `media-core` collaborator crate, absent from this repository's sources.
Per the spec a frame request whose shape differs from the pool's
configuration is an external protocol violation that propagates as an
error rather than silently reconfiguring; a request matching the
configuration yields a pooled frame. -/
def FramePool.get_frame_with_descriptor (pool : FramePool)
    (desc : VideoFrameDescriptor) : Except Error Unit :=
  if pool.config = some desc then .ok ()
  else .error (.Invalid "frame descriptor mismatch")

/-- The kind of frame `receive_frame` hands back, by the branch taken. -/
inductive FrameKind where
  | owned
  | sharedNoPool
  | pooledCopied
  | pooledAttached
  deriving DecidableEq, Repr

/-- Result of one `receive_frame` call: the outcome, the updated
`frame_pool_initialized` latch, and the (possibly reconfigured) frame
pool. -/
structure ReceiveResult where
  result : Except Error FrameKind
  latch : Bool
  pool : Option FramePool
  deriving Repr

/-- Embedding of `VPXDecoder::receive_frame` (src/decoder.rs, lines
197-239), parametrised by what the external cursor yields (`imgOpt`,
`none` meaning `vpx_codec_get_frame` returned null) and by the Backing
Buffer behind the image's private field when it has one.  `latch` is the
decoder's `frame_pool_initialized` flag on entry.
* No image → `Again`.
* No pool: an image without external buffer is copied
  (`convert_to_frame`); one with external buffer goes through
  `convert_to_buffer` and is attached to a fresh frame.
* Pool present, no external buffer: on an un-latched decoder the pool is
  configured from the descriptor and the latch set; then the image is
  copied into a pooled frame requested with the image's descriptor.
* Pool present, external buffer: `convert_to_buffer` first; on an
  un-latched decoder the pool is then configured with the
  `EmptyFrameCreator`; the shared buffer is attached to a pooled frame
  requested with the image's descriptor. -/
def VPXDecoder.receive_frame (latch : Bool) (poolOpt : Option FramePool)
    (imgOpt : Option vpx_image_t) (buffer : Buffer) : ReceiveResult :=
  match imgOpt with
  | none => ⟨.error (.Again "no frame available"), latch, poolOpt⟩
  | some img =>
    match poolOpt with
    | none =>
      if !VPXImage.has_frame_buffer img then
        match VPXImage.convert_to_frame img with
        | .error e => ⟨.error e, latch, none⟩
        | .ok _ => ⟨.ok .owned, latch, none⟩
      else
        match (VPXImage.convert_to_buffer img buffer).1 with
        | .error e => ⟨.error e, latch, none⟩
        | .ok _ => ⟨.ok .sharedNoPool, latch, none⟩
    | some pool =>
      if !VPXImage.has_frame_buffer img then
        match VPXImage.descriptor img with
        | .error e => ⟨.error e, latch, some pool⟩
        | .ok desc =>
          let (pool', latch') :=
            if !latch then (pool.configure desc false, true) else (pool, latch)
          match VPXImage.convert_to_frame img with
          | .error e => ⟨.error e, latch', some pool'⟩
          | .ok _ =>
            match pool'.get_frame_with_descriptor desc with
            | .error e => ⟨.error e, latch', some pool'⟩
            | .ok _ => ⟨.ok .pooledCopied, latch', some pool'⟩
      else
        match (VPXImage.convert_to_buffer img buffer).1 with
        | .error e => ⟨.error e, latch, some pool⟩
        | .ok (_, desc) =>
          let (pool', latch') :=
            if !latch then (pool.configure desc true, true) else (pool, latch)
          match pool'.get_frame_with_descriptor desc with
          | .error e => ⟨.error e, latch', some pool'⟩
          | .ok _ => ⟨.ok .pooledAttached, latch', some pool'⟩

/-! ## Helper lemmas -/

theorem planeOffsets_succ (img : vpx_image_t) (buffer : Buffer) (n : Nat) :
    (planeOffsets img buffer (n + 1)).isSome = true ↔
      (planeOffsets img buffer n).isSome = true ∧
        ptrOffset (img.planes n) buffer.base < buffer.len := by
  simp only [planeOffsets]
  cases planeOffsets img buffer n with
  | none => simp
  | some acc =>
    by_cases h : buffer.len ≤ ptrOffset (img.planes n) buffer.base
    · simp [h, Nat.not_lt.mpr h]
    · simp [h, Nat.lt_of_not_le h]

theorem planeOffsets_isSome_iff (img : vpx_image_t) (buffer : Buffer) (n : Nat) :
    (planeOffsets img buffer n).isSome = true ↔
      ∀ i, i < n → ptrOffset (img.planes i) buffer.base < buffer.len := by
  induction n with
  | zero => simp [planeOffsets]
  | succ n ih =>
    rw [planeOffsets_succ, ih]
    constructor
    · rintro ⟨hall, hn⟩ i hi
      rcases Nat.lt_succ_iff_lt_or_eq.mp hi with hi' | rfl
      · exact hall i hi'
      · exact hn
    · intro h
      exact ⟨fun i hi => h i (Nat.lt_succ_of_lt hi), h n (Nat.lt_succ_self n)⟩

theorem convert_to_frame_of_descriptor (img : vpx_image_t) (desc : VideoFrameDescriptor)
    (h : VPXImage.descriptor img = .ok desc) :
    VPXImage.convert_to_frame img = .ok desc := by
  simp [VPXImage.convert_to_frame, h]

theorem convert_to_buffer_ok_descriptor (img : vpx_image_t) (buffer : Buffer)
    (buffers : List (Nat × Nat)) (desc : VideoFrameDescriptor)
    (h : (VPXImage.convert_to_buffer img buffer).1 = .ok (buffers, desc)) :
    VPXImage.descriptor img = .ok desc := by
  unfold VPXImage.convert_to_buffer at h
  cases hd : VPXImage.descriptor img with
  | error e => simp [hd] at h
  | ok d =>
    simp only [hd] at h
    cases hp : planeOffsets img buffer d.format.components with
    | none => simp [hp] at h
    | some l =>
      simp only [hp, Except.ok.injEq, Prod.mk.injEq] at h
      exact h.2 ▸ rfl

theorem get_frame_buffer_capacity_le (pool : BufferPool) (min_size : Nat) :
    pool.capacity ≤ (get_frame_buffer pool min_size).1.capacity := by
  unfold get_frame_buffer
  by_cases h : pool.capacity < min_size <;> simp [h]
  omega

/-! ## Claims -/

/-- The lookup table the claim states, written from the spec's words:
YV12 / I420 / I422 / I444 / NV12 are depth-independent 8-bit formats; the
16-bit-container 4:2:0 / 4:2:2 / 4:4:4 formats are valid only at depth 10
or 12, mapping to I010/I012, I210/I212, I410/I412 respectively; every
other (format, depth) pair is unsupported. -/
def specPixelFormatTable (fmt : vpx_img_fmt) (depth : Nat) : Option PixelFormat :=
  match fmt with
  | .VPX_IMG_FMT_YV12 => some .YV12
  | .VPX_IMG_FMT_I420 => some .I420
  | .VPX_IMG_FMT_I422 => some .I422
  | .VPX_IMG_FMT_I444 => some .I444
  | .VPX_IMG_FMT_NV12 => some .NV12
  | .VPX_IMG_FMT_I42016 =>
      if depth = 10 then some .I010 else if depth = 12 then some .I012 else none
  | .VPX_IMG_FMT_I42216 =>
      if depth = 10 then some .I210 else if depth = 12 then some .I212 else none
  | .VPX_IMG_FMT_I44416 =>
      if depth = 10 then some .I410 else if depth = 12 then some .I412 else none
  | _ => none

/-- C3: `vpx_img_fmt_to_pixel_format` is exactly the finite lookup table on
(format, depth) pairs the spec describes, and on every unmatched pair the
descriptor extraction fails with an `Unsupported` error carrying the raw
format code. -/
theorem toPixelFormat_lookup_table :
    (∀ fmt depth,
      vpx_img_fmt_to_pixel_format fmt depth = specPixelFormatTable fmt depth) ∧
    (∀ img : vpx_image_t,
      vpx_img_fmt_to_pixel_format img.fmt img.bit_depth = none →
      VPXImage.descriptor img = .error (.Unsupported (.fmtCode img.fmt))) := by
  constructor
  · intro fmt depth
    unfold vpx_img_fmt_to_pixel_format
    split <;> (try cases fmt) <;> simp_all [specPixelFormatTable]
  · intro img h
    simp [VPXImage.descriptor, h]

/-- An image whose format code has no canonical mapping (format `NONE`). -/
def imgUnmatched : vpx_image_t :=
  ⟨1920, 1080, .VPX_IMG_FMT_NONE, 8, .VPX_CR_STUDIO_RANGE, .VPX_CS_BT_601,
    fun _ => 0, fun _ => 0, false⟩

theorem toPixelFormat_lookup_table_witness :
    VPXImage.descriptor imgUnmatched =
        .error (.Unsupported (.fmtCode .VPX_IMG_FMT_NONE)) ∧
      vpx_img_fmt_to_pixel_format .VPX_IMG_FMT_I42016 10 =
        specPixelFormatTable .VPX_IMG_FMT_I42016 10 :=
  ⟨toPixelFormat_lookup_table.2 imgUnmatched rfl,
    toPixelFormat_lookup_table.1 .VPX_IMG_FMT_I42016 10⟩

/-- The color-range mapping as the spec states it: the external studio
range is the canonical video range, the external full range is full. -/
def specColorRange : vpx_color_range → ColorRange
  | .VPX_CR_STUDIO_RANGE => .Video
  | .VPX_CR_FULL_RANGE => .Full

/-- The color-matrix mapping as the claim states it: the unknown code maps
to `Unspecified`; every named standard maps to the canonical matrix of the
same standard (the external BT.601 code's canonical matrix is `BT470BG`,
the BT.601-625 matrix; the external sRGB code's is `Identity`). -/
def specColorMatrix : vpx_color_space → ColorMatrix
  | .VPX_CS_UNKNOWN => .Unspecified
  | .VPX_CS_BT_601 => .BT470BG
  | .VPX_CS_BT_709 => .BT709
  | .VPX_CS_SMPTE_170 => .SMPTE170M
  | .VPX_CS_SMPTE_240 => .SMPTE240M
  | .VPX_CS_BT_2020 => .BT2020NCL
  | .VPX_CS_RESERVED => .Reserved
  | .VPX_CS_SRGB => .Identity

/-- C4: `vpx_color_range_to_color_range` and
`vpx_color_space_to_color_matrix` are total deterministic functions over
the external enumerations, mapping every code to the canonical value the
spec names (unknown to `Unspecified`, each standard to its own canonical
matrix). -/
theorem color_maps_total_and_match_spec :
    (∀ range, vpx_color_range_to_color_range range = specColorRange range) ∧
    (∀ cs, vpx_color_space_to_color_matrix cs = specColorMatrix cs) ∧
    (∀ cs m₁ m₂, vpx_color_space_to_color_matrix cs = m₁ →
      vpx_color_space_to_color_matrix cs = m₂ → m₁ = m₂) := by
  refine ⟨fun range => ?_, fun cs => ?_, fun cs m₁ m₂ h₁ h₂ => h₁ ▸ h₂ ▸ rfl⟩
  · cases range <;> rfl
  · cases cs <;> rfl

theorem color_maps_total_and_match_spec_witness :
    vpx_color_space_to_color_matrix .VPX_CS_BT_601 =
        specColorMatrix .VPX_CS_BT_601 ∧
      ColorMatrix.BT470BG = ColorMatrix.BT470BG :=
  ⟨color_maps_total_and_match_spec.2.1 .VPX_CS_BT_601,
    color_maps_total_and_match_spec.2.2 .VPX_CS_BT_601
      ColorMatrix.BT470BG ColorMatrix.BT470BG rfl rfl⟩

/-- C9: every `send_packet` call and every `flush` call resets the
iteration cursor to the start-of-output (null) state, for every external
decode status — including statuses on which the operation returns an
error. -/
theorem send_packet_flush_reset_cursor :
    ∀ (dec : VPXDecoder) (decodeRet : Nat),
      (dec.send_packet decodeRet).1.iter = none ∧
      (dec.flush decodeRet).1.iter = none ∧
      ((dec.send_packet decodeRet).2 = .ok () ↔ decodeRet = VPX_CODEC_OK) ∧
      ((dec.flush decodeRet).2 = .ok () ↔ decodeRet = VPX_CODEC_OK) := by
  intro dec decodeRet
  unfold VPXDecoder.send_packet VPXDecoder.flush
  by_cases h : decodeRet = VPX_CODEC_OK <;> simp [h]

/-- C6: a succeeding `get_frame_buffer` callback returns a buffer size of
at least `min_size`, and the pool's recorded buffer capacity never
shrinks: a single call leaves it unchanged unless the request exceeds it
(in which case it grows to exactly the request), and any sequence of
requests leaves it at least where it started. -/
theorem get_frame_buffer_size_and_monotone :
    (∀ (pool : BufferPool) (min_size : Nat),
      min_size ≤ (get_frame_buffer pool min_size).2.1 ∧
      pool.capacity ≤ (get_frame_buffer pool min_size).1.capacity ∧
      ((get_frame_buffer pool min_size).1.capacity ≠ pool.capacity →
        pool.capacity < min_size ∧
          (get_frame_buffer pool min_size).1.capacity = min_size)) ∧
    (∀ (reqs : List Nat) (pool : BufferPool),
      pool.capacity ≤
        (reqs.foldl (fun p m => (get_frame_buffer p m).1) pool).capacity) := by
  constructor
  · intro pool min_size
    unfold get_frame_buffer BufferPool.get_buffer_len
    by_cases h : pool.capacity < min_size <;> simp [h] <;> omega
  · intro reqs
    induction reqs with
    | nil => intro pool; simp
    | cons m rest ih =>
      intro pool
      calc pool.capacity ≤ (get_frame_buffer pool m).1.capacity :=
            get_frame_buffer_capacity_le pool m
        _ ≤ _ := ih (get_frame_buffer pool m).1

theorem get_frame_buffer_size_and_monotone_witness :
    10 ≤ (get_frame_buffer ⟨4⟩ 10).2.1 ∧
      (get_frame_buffer ⟨4⟩ 10).1.capacity = 10 :=
  ⟨(get_frame_buffer_size_and_monotone.1 ⟨4⟩ 10).1,
    ((get_frame_buffer_size_and_monotone.1 ⟨4⟩ 10).2.2 (by decide)).2⟩

/-- C7: constructing a decoder with any codec identifier other than VP8 or
VP9 fails with the `Unsupported` error carrying the identifier and makes
no external call at all (in particular it never invokes the initializer),
while both valid identifiers do reach the external initializer. -/
theorem new_unsupported_codec_never_touches_init :
    (∀ (id : CodecID) (initRet : Nat), id ≠ .VP8 → id ≠ .VP9 →
      (VPXDecoder.new id initRet).1 = .error (.Unsupported (.codecId id)) ∧
      (VPXDecoder.new id initRet).2 = []) ∧
    (∀ (id : CodecID) (initRet : Nat), id = .VP8 ∨ id = .VP9 →
      ExtCall.dec_init_ver ∈ (VPXDecoder.new id initRet).2) := by
  constructor
  · intro id initRet h8 h9
    cases id with
    | VP8 => exact absurd rfl h8
    | VP9 => exact absurd rfl h9
    | Other code => simp [VPXDecoder.new]
  · intro id initRet h
    rcases h with rfl | rfl <;>
      · unfold VPXDecoder.new
        by_cases h0 : initRet = VPX_CODEC_OK <;> simp [h0]

theorem new_unsupported_codec_never_touches_init_witness :
    ((VPXDecoder.new (.Other 7) 0).1 =
        .error (.Unsupported (.codecId (.Other 7))) ∧
      (VPXDecoder.new (.Other 7) 0).2 = []) ∧
      ExtCall.dec_init_ver ∈ (VPXDecoder.new .VP8 0).2 :=
  ⟨new_unsupported_codec_never_touches_init.1 (.Other 7) 0 (by decide) (by decide),
    new_unsupported_codec_never_touches_init.2 .VP8 0 (Or.inl rfl)⟩

/-- C8: the frame-buffer callbacks are registered during construction
exactly for VP9: a VP8 construction never registers them for any external
status, a registration implies the identifier was VP9, and a successful
construction registers them if and only if the identifier was VP9. -/
theorem frame_buffer_callbacks_registered_iff_vp9 :
    (∀ initRet : Nat,
      ExtCall.set_frame_buffer_functions ∉ (VPXDecoder.new .VP8 initRet).2) ∧
    (∀ (id : CodecID) (initRet : Nat) (dec : VPXDecoder),
      (VPXDecoder.new id initRet).1 = .ok dec →
      (ExtCall.set_frame_buffer_functions ∈ (VPXDecoder.new id initRet).2 ↔
        id = .VP9)) ∧
    (∀ (id : CodecID) (initRet : Nat),
      ExtCall.set_frame_buffer_functions ∈ (VPXDecoder.new id initRet).2 →
      id = .VP9) := by
  refine ⟨?_, ?_, ?_⟩
  · intro initRet
    unfold VPXDecoder.new
    by_cases h0 : initRet = VPX_CODEC_OK <;> simp [h0]
  · intro id initRet dec hok
    cases id with
    | VP8 =>
      constructor
      · intro hmem
        exfalso
        revert hmem
        unfold VPXDecoder.new
        by_cases h0 : initRet = VPX_CODEC_OK <;> simp [h0]
      · intro h; exact absurd h (by simp)
    | VP9 =>
      constructor
      · intro _; rfl
      · intro _
        revert hok
        unfold VPXDecoder.new
        by_cases h0 : initRet = VPX_CODEC_OK <;> simp [h0]
    | Other code =>
      exfalso
      revert hok
      simp [VPXDecoder.new]
  · intro id initRet hmem
    cases id with
    | VP8 =>
      exfalso
      revert hmem
      unfold VPXDecoder.new
      by_cases h0 : initRet = VPX_CODEC_OK <;> simp [h0]
    | VP9 => rfl
    | Other code =>
      exfalso
      revert hmem
      simp [VPXDecoder.new]

theorem frame_buffer_callbacks_registered_iff_vp9_witness :
    ExtCall.set_frame_buffer_functions ∈ (VPXDecoder.new .VP9 0).2 :=
  (frame_buffer_callbacks_registered_iff_vp9.2.1 .VP9 0
    ⟨.VP9, "vp9-dec", none, 0, false⟩ (by decide)).mpr rfl

/-- C1: on an externally-backed image whose descriptor is valid, if some
plane's computed byte offset falls outside `[0, buffer.len)`, then
`convert_to_buffer` fails with the integrity error and the backing
buffer's strong count is exactly its prior value afterwards, with the raw
borrow restored — no leak, no over-release. -/
theorem convert_to_buffer_out_of_range_integrity_no_leak
    (img : vpx_image_t) (buffer : Buffer) (rc0 : Nat) (desc : VideoFrameDescriptor)
    (_hfb : VPXImage.has_frame_buffer img = true)
    (hdesc : VPXImage.descriptor img = .ok desc)
    (i : Nat) (hi : i < desc.format.components)
    (hout : buffer.len ≤ ptrOffset (img.planes i) buffer.base) :
    (VPXImage.convert_to_buffer img buffer).1 =
        .error (.Invalid "invalid frame buffer offset") ∧
      arcRun rc0 (VPXImage.convert_to_buffer img buffer).2 = (rc0, true) := by
  have hnone : planeOffsets img buffer desc.format.components = none := by
    cases h : planeOffsets img buffer desc.format.components with
    | none => rfl
    | some l =>
      have hall :=
        (planeOffsets_isSome_iff img buffer desc.format.components).mp (by simp [h])
      exact absurd (hall i hi) (Nat.not_lt.mpr hout)
  constructor
  · simp [VPXImage.convert_to_buffer, hdesc, hnone]
  · simp [VPXImage.convert_to_buffer, hdesc, hnone, arcRun, arcStep]

/-- An externally-backed image whose single synthetic plane pointer sits at
offset exactly `len` (one past the end) of its backing buffer. -/
def imgOut : vpx_image_t :=
  ⟨2, 2, .VPX_IMG_FMT_I420, 8, .VPX_CR_FULL_RANGE, .VPX_CS_BT_709,
    fun _ => 1016, fun _ => 64, true⟩

/-- A 16-byte backing buffer based at address 1000. -/
def bufShared : Buffer := ⟨1000, 16⟩

/-- The descriptor of the synthetic 2×2 8-bit I420 images. -/
def descShared : VideoFrameDescriptor := ⟨.I420, 2, 2, .Full, .BT709⟩

theorem convert_to_buffer_out_of_range_integrity_no_leak_witness :
    (VPXImage.convert_to_buffer imgOut bufShared).1 =
        .error (.Invalid "invalid frame buffer offset") ∧
      arcRun 5 (VPXImage.convert_to_buffer imgOut bufShared).2 = (5, true) :=
  convert_to_buffer_out_of_range_integrity_no_leak imgOut bufShared 5 descShared
    rfl (by decide) 0 (by decide) (by decide)

/-- C2: on an externally-backed image whose descriptor is valid and whose
plane offsets are all in range, `convert_to_buffer` succeeds and the
backing buffer's strong count afterwards is exactly one above its prior
value (the owned clone handed to the caller), with the raw borrow
restored; and on every exit path whatsoever the borrow encoded in the
private field is restored before returning. -/
theorem convert_to_buffer_in_range_net_one_clone :
    (∀ (img : vpx_image_t) (buffer : Buffer) (rc0 : Nat)
        (desc : VideoFrameDescriptor),
      VPXImage.has_frame_buffer img = true →
      VPXImage.descriptor img = .ok desc →
      (∀ i, i < desc.format.components →
        ptrOffset (img.planes i) buffer.base < buffer.len) →
      (∃ buffers, (VPXImage.convert_to_buffer img buffer).1 = .ok (buffers, desc)) ∧
        arcRun rc0 (VPXImage.convert_to_buffer img buffer).2 = (rc0 + 1, true)) ∧
    (∀ (img : vpx_image_t) (buffer : Buffer) (rc0 : Nat),
      (arcRun rc0 (VPXImage.convert_to_buffer img buffer).2).2 = true) := by
  constructor
  · intro img buffer rc0 desc _ hdesc hall
    have hsome : (planeOffsets img buffer desc.format.components).isSome = true :=
      (planeOffsets_isSome_iff img buffer desc.format.components).mpr hall
    obtain ⟨l, hl⟩ := Option.isSome_iff_exists.mp hsome
    refine ⟨⟨l, ?_⟩, ?_⟩
    · simp [VPXImage.convert_to_buffer, hdesc, hl]
    · simp [VPXImage.convert_to_buffer, hdesc, hl, arcRun, arcStep]
  · intro img buffer rc0
    unfold VPXImage.convert_to_buffer
    cases hd : VPXImage.descriptor img with
    | error e => simp [arcRun, arcStep]
    | ok d =>
      cases hp : planeOffsets img buffer d.format.components with
      | none => simp [hp, arcRun, arcStep]
      | some l => simp [hp, arcRun, arcStep]

/-- An externally-backed 2×2 8-bit I420 image whose three plane pointers
sit at offsets 0, 4 and 8 of the 16-byte backing buffer, with stride 64. -/
def imgIn : vpx_image_t :=
  ⟨2, 2, .VPX_IMG_FMT_I420, 8, .VPX_CR_FULL_RANGE, .VPX_CS_BT_709,
    fun plane => 1000 + 4 * plane, fun _ => 64, true⟩

theorem convert_to_buffer_in_range_net_one_clone_witness :
    (∃ buffers,
      (VPXImage.convert_to_buffer imgIn bufShared).1 = .ok (buffers, descShared)) ∧
      arcRun 3 (VPXImage.convert_to_buffer imgIn bufShared).2 = (3 + 1, true) :=
  convert_to_buffer_in_range_net_one_clone.1 imgIn bufShared 3 descShared rfl
    (by decide) (by decide)

/-- C10: the offset validation in `convert_to_buffer` checks only each
plane's start offset: on the concrete image `imgIn` every plane's start
offset lies within `[0, len)`, yet some plane's full extent
(offset + stride × plane height) exceeds the buffer length, and the
conversion succeeds rather than failing with an integrity error. -/
theorem convert_to_buffer_checks_only_start_offsets :
    (VPXImage.convert_to_buffer imgIn bufShared).1 =
        .ok ([(0, 64), (4, 64), (8, 64)], descShared) ∧
      ((List.range descShared.format.components).all
        fun plane =>
          decide (ptrOffset (imgIn.planes plane) bufShared.base < bufShared.len)) = true ∧
      ((List.range descShared.format.components).any
        fun plane =>
          decide (bufShared.len <
            ptrOffset (imgIn.planes plane) bufShared.base +
              imgIn.stride plane *
                descShared.format.calc_plane_height plane imgIn.d_h)) = true := by
  decide

/-- C5: per decoder instance, the caller-supplied frame pool's
configuration is a single monotonic latch.  Once the
`frame_pool_initialized` flag is set, no `receive_frame` call changes the
pool's configuration or clears the flag; an un-latched decoder's first
delivered frame configures the pool from that frame's descriptor, exactly
once, setting the flag; and once latched, a frame whose descriptor differs
from the configured one makes `receive_frame` return an error with the
pool unchanged, rather than silently reconfiguring. -/
theorem frame_pool_configuration_latch :
    (∀ (pool : FramePool) (imgOpt : Option vpx_image_t) (buffer : Buffer),
      (VPXDecoder.receive_frame true (some pool) imgOpt buffer).pool = some pool ∧
      (VPXDecoder.receive_frame true (some pool) imgOpt buffer).latch = true) ∧
    (∀ (pool : FramePool) (img : vpx_image_t) (buffer : Buffer) (kind : FrameKind),
      (VPXDecoder.receive_frame false (some pool) (some img) buffer).result = .ok kind →
      (VPXDecoder.receive_frame false (some pool) (some img) buffer).latch = true ∧
      ∃ desc, VPXImage.descriptor img = .ok desc ∧
        (VPXDecoder.receive_frame false (some pool) (some img) buffer).pool =
          some (pool.configure desc (VPXImage.has_frame_buffer img))) ∧
    (∀ (pool : FramePool) (d0 : VideoFrameDescriptor) (img : vpx_image_t)
        (buffer : Buffer) (desc : VideoFrameDescriptor),
      pool.config = some d0 →
      VPXImage.descriptor img = .ok desc →
      desc ≠ d0 →
      (∃ e, (VPXDecoder.receive_frame true (some pool) (some img) buffer).result =
        .error e) ∧
      (VPXDecoder.receive_frame true (some pool) (some img) buffer).pool =
        some pool) := by
  refine ⟨?_, ?_, ?_⟩
  · intro pool imgOpt buffer
    cases imgOpt with
    | none => simp [VPXDecoder.receive_frame]
    | some img =>
      unfold VPXDecoder.receive_frame
      cases hfb : VPXImage.has_frame_buffer img with
      | false =>
        simp only [hfb, Bool.not_false, if_true]
        cases hd : VPXImage.descriptor img with
        | error e => simp
        | ok desc =>
          cases hcf : VPXImage.convert_to_frame img with
          | error e => simp
          | ok d2 =>
            cases hg : FramePool.get_frame_with_descriptor pool desc with
            | error e => simp [hg]
            | ok u => simp [hg]
      | true =>
        simp only [hfb, Bool.not_true, if_false]
        cases hcb : (VPXImage.convert_to_buffer img buffer).1 with
        | error e => simp
        | ok pr =>
          obtain ⟨l, desc⟩ := pr
          cases hg : FramePool.get_frame_with_descriptor pool desc with
          | error e => simp [hg]
          | ok u => simp [hg]
  · intro pool img buffer kind
    unfold VPXDecoder.receive_frame
    cases hfb : VPXImage.has_frame_buffer img with
    | false =>
      simp only [hfb, Bool.not_false, if_true]
      cases hd : VPXImage.descriptor img with
      | error e => intro hok; simp at hok
      | ok desc =>
        have hcf := convert_to_frame_of_descriptor img desc hd
        have hg : FramePool.get_frame_with_descriptor (pool.configure desc false) desc =
            .ok () := by
          simp [FramePool.configure, FramePool.get_frame_with_descriptor]
        simp only [Bool.not_false, if_true, hcf, hg]
        intro _
        exact ⟨by simp, desc, by simp, by simp [FramePool.configure]⟩
    | true =>
      simp only [hfb, Bool.not_true, if_false]
      cases hcb : (VPXImage.convert_to_buffer img buffer).1 with
      | error e => intro hok; simp at hok
      | ok pr =>
        obtain ⟨l, desc⟩ := pr
        have hd := convert_to_buffer_ok_descriptor img buffer l desc hcb
        have hg : FramePool.get_frame_with_descriptor (pool.configure desc true) desc =
            .ok () := by
          simp [FramePool.configure, FramePool.get_frame_with_descriptor]
        simp only [Bool.not_false, if_true, hg]
        intro _
        exact ⟨by simp, desc, hd, by simp [FramePool.configure]⟩
  · intro pool d0 img buffer desc hcfg hd hne
    have hg : FramePool.get_frame_with_descriptor pool desc =
        .error (.Invalid "frame descriptor mismatch") := by
      unfold FramePool.get_frame_with_descriptor
      rw [hcfg]
      have hne' : ¬d0 = desc := fun h => hne h.symm
      simp [hne']
    unfold VPXDecoder.receive_frame
    cases hfb : VPXImage.has_frame_buffer img with
    | false =>
      have hcf := convert_to_frame_of_descriptor img desc hd
      simp [hfb, hd, hcf, hg]
    | true =>
      cases hcb : (VPXImage.convert_to_buffer img buffer).1 with
      | error e => simp [hfb, hcb]
      | ok pr =>
        obtain ⟨l, d2⟩ := pr
        have hdd : d2 = desc := by
          have h2 := convert_to_buffer_ok_descriptor img buffer l d2 hcb
          rw [hd] at h2
          injection h2 with h2
          exact h2.symm
        subst hdd
        simp [hfb, hcb, hg]

/-- A 4×4 8-bit I420 image not backed by an external buffer, used to
configure a fresh frame pool. -/
def imgPooled : vpx_image_t :=
  ⟨4, 4, .VPX_IMG_FMT_I420, 8, .VPX_CR_STUDIO_RANGE, .VPX_CS_BT_601,
    fun _ => 0, fun _ => 4, false⟩

/-- The descriptor of `imgPooled`. -/
def descPooled : VideoFrameDescriptor := ⟨.I420, 4, 4, .Video, .BT470BG⟩

/-- An 8×8 8-bit I444 image with a shape differing from `descPooled`. -/
def imgOtherShape : vpx_image_t :=
  ⟨8, 8, .VPX_IMG_FMT_I444, 8, .VPX_CR_FULL_RANGE, .VPX_CS_BT_709,
    fun _ => 0, fun _ => 8, false⟩

/-- The descriptor of `imgOtherShape`. -/
def descOtherShape : VideoFrameDescriptor := ⟨.I444, 8, 8, .Full, .BT709⟩

/-- A frame pool not yet configured. -/
def poolFresh : FramePool := ⟨none, false⟩

/-- A frame pool already configured with `descPooled`. -/
def poolLatched : FramePool := ⟨some descPooled, false⟩

theorem frame_pool_configuration_latch_witness :
    ((VPXDecoder.receive_frame false (some poolFresh) (some imgPooled)
        bufShared).latch = true ∧
      ∃ desc, VPXImage.descriptor imgPooled = .ok desc ∧
        (VPXDecoder.receive_frame false (some poolFresh) (some imgPooled)
            bufShared).pool =
          some (poolFresh.configure desc (VPXImage.has_frame_buffer imgPooled))) ∧
    ((∃ e, (VPXDecoder.receive_frame true (some poolLatched) (some imgOtherShape)
        bufShared).result = .error e) ∧
      (VPXDecoder.receive_frame true (some poolLatched) (some imgOtherShape)
          bufShared).pool = some poolLatched) :=
  ⟨frame_pool_configuration_latch.2.1 poolFresh imgPooled bufShared .pooledCopied
      (by decide),
    frame_pool_configuration_latch.2.2 poolLatched descPooled imgOtherShape
      bufShared descOtherShape (by decide) (by decide) (by decide)⟩

end VPXCodec
